import Mathlib

/-!
Shallow embedding of the job-submission workflow of the HealthScribe demo
app, translated from `src/components/NewConversation/NewConversation.tsx`
(first flow variant, the one the claims' line references resolve to).

External collaborators (`multipartUpload`, `startMedicalScribeJob`,
`getHealthScribeJob`, `verifyJobParams`, the notification sink and the
router) live outside the provided sources; following their contracts they
are modelled as inputs of an environment record, and every observable
action of `submitJob` (posted notifications, remote calls, navigation) is
recorded in an event trace.
-/

/-- Notification type field of the flashbar entries
(`updateProgressBar` argument); when the call site omits `type`, the sink
treats the entry as informational, so `info` is the default. -/
inductive NotifType where
  | info
  | success
  | error
deriving DecidableEq, Repr

/-- One `updateProgressBar` argument record: id, optional type, value,
description and optional additionalInfo, as in the TSX call sites. -/
structure Notification where
  id : String
  ntype : NotifType := .info
  value : Nat
  description : String
  additionalInfo : Option String := none
deriving DecidableEq, Repr

/-- Observable actions of one `submitJob` run, in program order:
notification upserts, the `startMedicalScribeJob` call, each
`getHealthScribeJob` call, and router navigation. -/
inductive Event where
  | notify (n : Notification)
  | startJobCall
  | getJobCall (name : String)
  | navigate (path : String)
deriving DecidableEq, Repr

/-- `e` is a navigation action. -/
def Event.isNavigate : Event → Bool
  | .navigate _ => true
  | _ => false

/-- `e` is an error-typed notification upsert. -/
def Event.isErrorNotif : Event → Bool
  | .notify n => n.ntype = .error
  | _ => false

/-- `e` is the `startMedicalScribeJob` invocation. -/
def Event.isStartJobCall : Event → Bool
  | .startJobCall => true
  | _ => false

/-- `e` is a `getHealthScribeJob` invocation. -/
def Event.isGetJobCall : Event → Bool
  | .getJobCall _ => true
  | _ => false

/-- JavaScript `x || d` for an optional number: the default replaces both
a missing field and a zero value (both are falsy). -/
def jsOr (x : Option Nat) (d : Nat) : Nat :=
  match x with
  | none => d
  | some 0 => d
  | some n => n

/-- JavaScript `Math.round (num / den)` on non-negative exact values:
half-up rounding, `⌊num/den + 1/2⌋ = ⌊(2*num + den) / (2*den)⌋`. -/
def jsRound (num den : Nat) : Nat :=
  (2 * num + den) / (2 * den)

/-- `Math.round(((loaded || 1) / (total || 100)) * 99)` from
`s3UploadCallback` (NewConversation.tsx line 89). -/
def s3UploadValue (loaded total : Option Nat) : Nat :=
  jsRound (99 * jsOr loaded 1) (jsOr total 100)

/-- JavaScript string interpolation of a possibly-undefined number. -/
def renderOptNat (x : Option Nat) : String :=
  match x with
  | none => "undefined"
  | some n => toString n

/-- One `Progress` record delivered to the lib-storage upload callback:
optional loaded bytes, part number and total bytes. -/
structure UploadProgress where
  loaded : Option Nat
  part : Option Nat
  total : Option Nat
deriving DecidableEq, Repr

/-- The shared notification id used by the job-creation, polling and
terminal notifications and by `s3UploadCallback` (first variant):
`New HealthScribe Job: <jobName>`. -/
def notifId (jobName : String) : String :=
  "New HealthScribe Job: " ++ jobName

/-- The notification posted by `s3UploadCallback` (lines 87-97): value is
the 0-99 scaled upload progress, description reports part and MB counts,
no explicit type (info) and no additionalInfo. -/
def s3UploadNotif (jobName : String) (p : UploadProgress) : Notification :=
  { id := notifId jobName
    value := s3UploadValue p.loaded p.total
    description :=
      "Uploaded part " ++ renderOptNat p.part ++ ", "
        ++ toString (jsRound (jsOr p.loaded 1) 1048576) ++ "MB / "
        ++ toString (jsRound (jsOr p.total 1) 1048576) ++ "MB" }

/-- The initial flash message posted before the upload begins
(lines 160-164): constant id `Transcribing Audio`, value 0. -/
def initialNotif : Notification :=
  { id := "Transcribing Audio"
    value := 0
    description := "Uploading Audio in progress..." }

/-- The notification posted when `multipartUpload` rejects
(lines 174-180): id `New Job: <jobName>`, error type, value 0,
additionalInfo carrying the file name and the error message. -/
def uploadErrorNotif (jobName fileName msg : String) : Notification :=
  { id := "New Job: " ++ jobName
    ntype := .error
    value := 0
    description := "Uploading Audio failed"
    additionalInfo := some ("Error uploading " ++ fileName ++ ": " ++ msg) }

/-- The 20% notification posted when job creation returns a truthy
status (lines 188-193). -/
def creationNotif (jobName : String) : Notification :=
  { id := notifId jobName
    value := 20
    description := "Scribe job submitted"
    additionalInfo := some "Audio file successfully uploaded and submitted to transcription." }

/-- The per-iteration polling notification (lines 200-205): value is the
current progress counter, info type. -/
def pollNotif (jobName : String) (progress : Nat) : Notification :=
  { id := notifId jobName
    value := progress
    description := "Scribe job submitted"
    additionalInfo := some "Transcribing audio..." }

/-- The terminal success notification posted on observing COMPLETED
(lines 212-218): value 100, success type. -/
def successNotif (jobName : String) : Notification :=
  { id := notifId jobName
    ntype := .success
    value := 100
    description := "Scribe job submitted"
    additionalInfo := some "Audio file successfully uploaded and submitted to transcription." }

/-- The notification posted when the creation response has no truthy
status field (lines 226-232): info type, value 100, echoing the raw
response. -/
def unconfirmedNotif (jobName rawData : String) : Notification :=
  { id := notifId jobName
    ntype := .info
    value := 100
    description := "Unable to confirm job submission"
    additionalInfo := some ("Response from HealthScribe: " ++ rawData) }

/-- The notification posted by the catch block around job creation and
polling (lines 235-241): error type, value 0, carrying the thrown
message. -/
def scribeErrorNotif (jobName msg : String) : Notification :=
  { id := notifId jobName
    ntype := .error
    value := 0
    description := "Submitting job to HealthScribe failed"
    additionalInfo := some ("Error submitting job to HealthScribe: " ++ msg) }

/-- JavaScript truthiness of the optional status string
`startJob?.data?.MedicalScribeJob?.MedicalScribeJobStatus`: a missing
field and the empty string are falsy. -/
def jsTruthy (s : Option String) : Bool :=
  match s with
  | none => false
  | some t => t ≠ ""

/-- Environment of one `submitJob` run: the validator verdict, the file
name, the upload progress events and outcome, the job-creation outcome
(thrown message, or response with optional status field plus its raw JSON
rendering) and the per-iteration poll outcomes. -/
structure Env where
  verified : Bool
  verifyMessage : String
  fileName : String
  uploadEvents : List UploadProgress
  uploadResult : Option String
  startJobResult : Except String (Option String)
  startJobRawData : String
  pollResult : Nat → Except String (Option String)

/-- How one `submitJob` invocation ends: a normal return, the validation
early-return, a re-raised exception, or still inside the unbounded
polling loop (fuel exhausted in the fuel-indexed semantics). -/
inductive Outcome where
  | returned
  | validationFailed
  | raised (msg : String)
  | stillPolling
deriving DecidableEq, Repr

/-- `true` exactly when the run is still inside the polling loop. -/
def Outcome.running : Outcome → Bool
  | .stillPolling => true
  | _ => false

/-- Result of one `submitJob` run: how it ended, the event trace, the
final `isSubmitting` flag and the final `formError` value. -/
structure RunResult where
  outcome : Outcome
  events : List Event
  isSubmitting : Bool
  formError : String
deriving DecidableEq, Repr

/-- How the `while (true)` polling loop ends in the fuel-indexed
semantics. -/
inductive PollOut where
  | completed
  | raisedMsg (msg : String)
  | outOfFuel
deriving DecidableEq, Repr

/-- The polling loop (lines 196-224), indexed by fuel: each iteration
sleeps, calls `getHealthScribeJob`, posts the progress notification,
advances the counter by 5 clamped at 90, and on status COMPLETED posts
the success notification and navigates.  A thrown poll error ends the
loop before the iteration's notification is posted (the exception
propagates to the surrounding catch). -/
def pollLoop (poll : Nat → Except String (Option String)) (jobName : String) :
    Nat → Nat → Nat → List Event × PollOut
  | _, _, 0 => ([], .outOfFuel)
  | i, progress, fuel + 1 =>
    match poll i with
    | .error msg => ([.getJobCall jobName], .raisedMsg msg)
    | .ok st =>
      let iterEvs : List Event := [.getJobCall jobName, .notify (pollNotif jobName progress)]
      let next := if progress + 5 ≥ 90 then 90 else progress + 5
      if st = some "COMPLETED" then
        (iterEvs ++ [.notify (successNotif jobName), .navigate ("/conversation/" ++ jobName)],
          .completed)
      else
        let rest := pollLoop poll jobName (i + 1) next fuel
        (iterEvs ++ rest.1, rest.2)

/-- The upload-progress notifications fired by `multipartUpload` through
`s3UploadCallback` before it settles. -/
def uploadNotifs (jobName : String) (evts : List UploadProgress) : List Event :=
  evts.map (fun p => .notify (s3UploadNotif jobName p))

/-- `submitJob` (lines 102-247), first flow variant.  Control flow:
validation early-return; initial flash message; upload (catch posts the
upload error notification, resets `isSubmitting` and re-raises); job
creation (truthy status starts the polling loop at progress 10, falsy
status posts the unconfirmed echo; the catch posts the scribe error
notification, resets `isSubmitting` and re-raises); finally
`isSubmitting` is reset.  The body contains no `setJobName` call. -/
def submitJob (env : Env) (jobName : String) (fuel : Nat) : RunResult :=
  if env.verified = false then
    { outcome := .validationFailed, events := [], isSubmitting := false
      formError := env.verifyMessage }
  else
    let pre : List Event := .notify initialNotif :: uploadNotifs jobName env.uploadEvents
    match env.uploadResult with
    | some msg =>
      { outcome := .raised msg
        events := pre ++ [.notify (uploadErrorNotif jobName env.fileName msg)]
        isSubmitting := false, formError := "" }
    | none =>
      let pre2 := pre ++ [Event.startJobCall]
      match env.startJobResult with
      | .error msg =>
        { outcome := .raised msg
          events := pre2 ++ [.notify (scribeErrorNotif jobName msg)]
          isSubmitting := false, formError := "" }
      | .ok st =>
        if jsTruthy st then
          match pollLoop env.pollResult jobName 0 10 fuel with
          | (pollEvs, .completed) =>
            { outcome := .returned
              events := pre2 ++ .notify (creationNotif jobName) :: pollEvs
              isSubmitting := false, formError := "" }
          | (pollEvs, .raisedMsg msg) =>
            { outcome := .raised msg
              events := pre2 ++ .notify (creationNotif jobName) :: pollEvs
                ++ [.notify (scribeErrorNotif jobName msg)]
              isSubmitting := false, formError := "" }
          | (pollEvs, .outOfFuel) =>
            { outcome := .stillPolling
              events := pre2 ++ .notify (creationNotif jobName) :: pollEvs
              isSubmitting := true, formError := "" }
        else
          { outcome := .returned
            events := pre2 ++ [.notify (unconfirmedNotif jobName env.startJobRawData)]
            isSubmitting := false, formError := "" }

/-- Values of the polling-iteration notifications in a trace, identified
by their unique additionalInfo text `Transcribing audio...`. -/
def pollingNotifValues (evs : List Event) : List Nat :=
  evs.filterMap fun e =>
    match e with
    | .notify n => if n.additionalInfo = some "Transcribing audio..." then some n.value else none
    | _ => none

/-- Values of the success-typed notifications in a trace. -/
def successNotifValues (evs : List Event) : List Nat :=
  evs.filterMap fun e =>
    match e with
    | .notify n => if n.ntype = .success then some n.value else none
    | _ => none

/-- Ids of all notifications posted in a trace, in order. -/
def notifIds (evs : List Event) : List String :=
  evs.filterMap fun e =>
    match e with
    | .notify n => some n.id
    | _ => none

/-- Values of the notifications posted under a given id, in order. -/
def notifValuesById (i : String) (evs : List Event) : List Nat :=
  evs.filterMap fun e =>
    match e with
    | .notify n => if n.id = i then some n.value else none
    | _ => none

/-- Poll responses of the C1 scenario: first IN_PROGRESS, then
COMPLETED. -/
def pollSeq1 : Nat → Except String (Option String) :=
  fun i => if i = 0 then .ok (some "IN_PROGRESS") else .ok (some "COMPLETED")

/-- C1 scenario environment: upload succeeds with no progress events,
creation returns SUBMITTED, polls per `pollSeq1`. -/
def envScenario1 : Env :=
  { verified := true
    verifyMessage := ""
    fileName := "audio.wav"
    uploadEvents := []
    uploadResult := none
    startJobResult := .ok (some "SUBMITTED")
    startJobRawData := "raw-response"
    pollResult := pollSeq1 }

/-- One entry of the `ChannelDefinitions` array of the
StartMedicalScribeJob request. -/
structure ChannelDef where
  channelId : Nat
  participantRole : String
deriving DecidableEq, Repr

/-- The role assigned to channel 1 (lines 124-125): PATIENT when the
chosen role is CLINICIAN, otherwise CLINICIAN. -/
def complementaryRole (channel1 : String) : String :=
  if channel1 = "CLINICIAN" then "PATIENT" else "CLINICIAN"

/-- The `ChannelDefinitions` array built for channel identification
(lines 117-127): channel 0 carries the user-chosen role stored in
`audioDetails.channelIdentification.channel1`, channel 1 the
complementary role. -/
def channelDefinitions (channel1 : String) : List ChannelDef :=
  [{ channelId := 0, participantRole := channel1 },
    { channelId := 1, participantRole := complementaryRole channel1 }]

/-- The two mutually exclusive audio-analysis parameter shapes of the
job-creation payload (lines 108-131). -/
inductive AudioParams where
  | speaker (maxSpeakerLabels : Nat) (showSpeakerLabels : Bool)
  | channel (channelDefs : List ChannelDef) (channelIdentification : Bool)
deriving DecidableEq, Repr

/-- The `audioParams` ternary of `submitJob` (lines 108-131): speaker
partitioning settings for that selection, otherwise the two channel
definitions with `ChannelIdentification: true`. -/
def buildAudioParams (audioSelection : String) (maxSpeakers : Nat) (channel1 : String) :
    AudioParams :=
  if audioSelection = "speakerPartitioning" then .speaker maxSpeakers true
  else .channel (channelDefinitions channel1) true

/-- `generateFilename` (lines 40-43): a fresh `session-<uuid4>` name;
the random uuid is a parameter of the model. -/
def generateFilename (uuid : String) : String :=
  "session-" ++ uuid

/-- The per-mount page state relevant to job naming: the `jobName`
React state, initialised once at mount (line 51). -/
structure PageState where
  jobName : String
deriving DecidableEq, Repr

/-- Mounting the NewConversation page: `useState(generateFilename())`
runs the initialiser once with a fresh uuid. -/
def mountPage (uuid : String) : PageState :=
  { jobName := generateFilename uuid }

/-- One user-initiated submission on a mounted page: `submitJob` reads
the page's current `jobName`.  The body of `submitJob` (lines 102-247)
contains no `setJobName` call, so the page state after the attempt keeps
the same job name. -/
def submitJobPage (env : Env) (st : PageState) (fuel : Nat) : RunResult × PageState :=
  (submitJob env st.jobName fuel, st)

/-- `true` when successive list elements never decrease. -/
def valuesNondecreasing : List Nat → Bool
  | a :: b :: l => Nat.ble a b && valuesNondecreasing (b :: l)
  | _ => true

/-- `true` when successive list elements strictly increase. -/
def valuesStrictlyIncreasing : List Nat → Bool
  | a :: b :: l => Nat.blt a b && valuesStrictlyIncreasing (b :: l)
  | _ => true

/-- Concrete environment for the C2 witness: the upload rejects. -/
def envUploadReject : Env :=
  { verified := true
    verifyMessage := ""
    fileName := "visit.wav"
    uploadEvents := []
    uploadResult := some "Access Denied"
    startJobResult := .ok none
    startJobRawData := "raw-response"
    pollResult := fun _ => .ok none }

/-- Poll responses of the C4 counterexample run: first IN_PROGRESS, then
COMPLETED. -/
def pollSeq4 : Nat → Except String (Option String) :=
  fun i => if i = 0 then .ok (some "IN_PROGRESS") else .ok (some "COMPLETED")

/-- Environment of the C4 counterexample run: a plain successful
submission that completes on the second poll. -/
def envScenario4 : Env :=
  { verified := true
    verifyMessage := ""
    fileName := "audio.wav"
    uploadEvents := []
    uploadResult := none
    startJobResult := .ok (some "SUBMITTED")
    startJobRawData := "raw-response"
    pollResult := pollSeq4 }

/-- Environment of the C5 counterexample run: the upload rejects, so the
run posts the initial and the upload-error notifications. -/
def envUploadFail5 : Env :=
  { verified := true
    verifyMessage := ""
    fileName := "clinic.wav"
    uploadEvents := []
    uploadResult := some "Network Failure"
    startJobResult := .ok none
    startJobRawData := "raw-response"
    pollResult := fun _ => .ok none }

/-- Environment of the C9 counterexample: the upload rejects, so the
attempt fails after the job name is fixed. -/
def envResubmit : Env :=
  { verified := true
    verifyMessage := ""
    fileName := "retry.wav"
    uploadEvents := []
    uploadResult := some "ECONNRESET"
    startJobResult := .ok none
    startJobRawData := "raw-response"
    pollResult := fun _ => .ok none }

/-- Concrete environment for the C8 witness: successful upload, creation
response without a status field. -/
def envUnconfirmed : Env :=
  { verified := true
    verifyMessage := ""
    fileName := "audio.wav"
    uploadEvents := []
    uploadResult := none
    startJobResult := .ok none
    startJobRawData := "raw-response"
    pollResult := fun _ => .ok none }

/-- Concrete environment for the C3 witness: every poll returns the
terminal FAILED status. -/
def envAlwaysFailed : Env :=
  { verified := true
    verifyMessage := ""
    fileName := "audio.wav"
    uploadEvents := []
    uploadResult := none
    startJobResult := .ok (some "SUBMITTED")
    startJobRawData := "raw-response"
    pollResult := fun _ => .ok (some "FAILED") }

/-- Every event fired through `s3UploadCallback` is an info-typed
notification: not a remote call, not navigation, not error-typed. -/
theorem uploadNotifs_props (jn : String) (l : List UploadProgress) :
    ∀ e ∈ uploadNotifs jn l,
      e.isStartJobCall = false ∧ e.isGetJobCall = false ∧ e.isNavigate = false
        ∧ e.isErrorNotif = false := by
  intro e he
  simp only [uploadNotifs, List.mem_map] at he
  obtain ⟨p, -, rfl⟩ := he
  refine ⟨rfl, rfl, rfl, ?_⟩
  simp [Event.isErrorNotif, s3UploadNotif]

/-- Claim C1: in the scenario with job name `session-abc` where the
upload succeeds, job creation returns SUBMITTED, the first poll returns
IN_PROGRESS and the second COMPLETED, the workflow posts exactly two
polling notifications (values 10 then 15, strictly increasing, below
100), then one success-typed notification at 100, then navigates to
`/conversation/session-abc`. -/
theorem c1_scenario_two_polls_success_navigate :
    (submitJob envScenario1 "session-abc" 5).events =
      [.notify initialNotif, .startJobCall, .notify (creationNotif "session-abc"),
        .getJobCall "session-abc", .notify (pollNotif "session-abc" 10),
        .getJobCall "session-abc", .notify (pollNotif "session-abc" 15),
        .notify (successNotif "session-abc"), .navigate "/conversation/session-abc"]
    ∧ pollingNotifValues (submitJob envScenario1 "session-abc" 5).events = [10, 15]
    ∧ valuesStrictlyIncreasing (pollingNotifValues (submitJob envScenario1 "session-abc" 5).events)
        = true
    ∧ (∀ v ∈ pollingNotifValues (submitJob envScenario1 "session-abc" 5).events, v < 100)
    ∧ successNotifValues (submitJob envScenario1 "session-abc" 5).events = [100]
    ∧ (submitJob envScenario1 "session-abc" 5).outcome = .returned := by
  decide

/-- Claim C2: whenever the multipart upload rejects with message `msg`,
`submitJob` posts the terminal error notification carrying the file name
and message, re-raises the error, and never emits the
`startMedicalScribeJob` call. -/
theorem c2_upload_failure_halts (env : Env) (jobName : String) (fuel : Nat) (msg : String)
    (hver : env.verified = true) (hup : env.uploadResult = some msg) :
    (submitJob env jobName fuel).outcome = .raised msg
    ∧ Event.notify (uploadErrorNotif jobName env.fileName msg) ∈ (submitJob env jobName fuel).events
    ∧ (uploadErrorNotif jobName env.fileName msg).ntype = .error
    ∧ (uploadErrorNotif jobName env.fileName msg).additionalInfo
        = some ("Error uploading " ++ env.fileName ++ ": " ++ msg)
    ∧ ∀ e ∈ (submitJob env jobName fuel).events, e.isStartJobCall = false := by
  have hrun : submitJob env jobName fuel =
      { outcome := .raised msg
        events := .notify initialNotif :: (uploadNotifs jobName env.uploadEvents
          ++ [.notify (uploadErrorNotif jobName env.fileName msg)])
        isSubmitting := false
        formError := "" } := by
    simp [submitJob, hver, hup]
  rw [hrun]
  refine ⟨rfl, ?_, rfl, rfl, ?_⟩
  · simp
  · intro e he
    simp only [List.mem_cons, List.mem_append, List.mem_singleton, List.not_mem_nil,
      or_false] at he
    rcases he with rfl | he | rfl
    · rfl
    · exact (uploadNotifs_props jobName env.uploadEvents e he).1
    · rfl

/-- Witness for C2 at a concrete rejecting environment. -/
theorem c2_upload_failure_halts_witness :
    (submitJob envUploadReject "session-w2" 3).outcome = .raised "Access Denied"
    ∧ Event.notify (uploadErrorNotif "session-w2" "visit.wav" "Access Denied")
        ∈ (submitJob envUploadReject "session-w2" 3).events
    ∧ (uploadErrorNotif "session-w2" "visit.wav" "Access Denied").ntype = .error
    ∧ (uploadErrorNotif "session-w2" "visit.wav" "Access Denied").additionalInfo
        = some ("Error uploading " ++ "visit.wav" ++ ": " ++ "Access Denied")
    ∧ ∀ e ∈ (submitJob envUploadReject "session-w2" 3).events, e.isStartJobCall = false :=
  c2_upload_failure_halts envUploadReject "session-w2" 3 "Access Denied" rfl rfl

/-- Claim C10: `submitJob`'s final `isSubmitting` flag is true exactly
while the run is still inside the polling loop; every terminating exit
(normal return, validation early-return, re-raised error) resets it to
false. -/
theorem c10_isSubmitting_tracks_running (env : Env) (jobName : String) (fuel : Nat) :
    (submitJob env jobName fuel).isSubmitting = (submitJob env jobName fuel).outcome.running := by
  unfold submitJob
  split
  · rfl
  · split
    · rfl
    · split
      · rfl
      · split
        · split <;> rfl
        · rfl

/-- Counterexample to claim C4: in a plain successful run the values
posted under the job-keyed id are 20, 10, 15, 100; the prefix before the
terminal success (20, 10, 15) is not non-decreasing, and the first
polling value 10 is lower than the 20 posted at job creation. -/
theorem c4_counterexample_value_regresses :
    notifValuesById (notifId "session-abc") (submitJob envScenario4 "session-abc" 5).events
      = [20, 10, 15, 100]
    ∧ valuesNondecreasing
        ((notifValuesById (notifId "session-abc")
          (submitJob envScenario4 "session-abc" 5).events).take 3) = false
    ∧ (pollingNotifValues (submitJob envScenario4 "session-abc" 5).events).head? = some 10
    ∧ ¬ (20 : Nat) ≤ 10 := by
  decide

/-- Counterexample to claim C5: one submission posts notifications under
two different ids, and the first id (`Transcribing Audio`) is a constant
that is not keyed by the job name. -/
theorem c5_counterexample_distinct_ids :
    notifIds (submitJob envUploadFail5 "session-abc" 3).events
      = ["Transcribing Audio", "New Job: session-abc"]
    ∧ ("Transcribing Audio" : String) ≠ "New Job: session-abc"
    ∧ ("Transcribing Audio" : String) ≠ notifId "session-abc" := by
  decide

/-- Counterexample to claim C6: with `loaded = 1000` and `total = 0`,
the defaulted computation returns 990, far outside [0, 99]. -/
theorem c6_counterexample_value_exceeds_99 :
    s3UploadValue (some 1000) (some 0) = 990
    ∧ ¬ s3UploadValue (some 1000) (some 0) ≤ 99 := by
  decide

/-- Amended claim C6: the progress value is computed with the divisor
defaulted to 100 when total is absent or zero (so it is positive and no
division by zero occurs), and it lies in [0, 99] whenever the defaulted
loaded count does not exceed the defaulted total. -/
theorem c6_amended_value_bounded (loaded total : Option Nat)
    (h : jsOr loaded 1 ≤ jsOr total 100) :
    0 < jsOr total 100 ∧ s3UploadValue loaded total ≤ 99 := by
  have ht : 0 < jsOr total 100 := by
    rcases total with _ | t
    · decide
    · rcases t with _ | t
      · decide
      · simp [jsOr]
  refine ⟨ht, ?_⟩
  have h2 : 0 < 2 * jsOr total 100 := by omega
  have hlt : 2 * (99 * jsOr loaded 1) + jsOr total 100 < 100 * (2 * jsOr total 100) := by
    omega
  have hq := (Nat.div_lt_iff_lt_mul h2).mpr hlt
  simp only [s3UploadValue, jsRound]
  omega

/-- Witness for the amended C6 at `loaded = 50`, `total = 100`. -/
theorem c6_amended_value_bounded_witness :
    0 < jsOr (some 100) 100 ∧ s3UploadValue (some 50) (some 100) ≤ 99 :=
  c6_amended_value_bounded (some 50) (some 100) (by decide)

/-- Claim C7: for every channel-identification submission with a valid
chosen role, channel 0 carries the chosen role, channel 1 the
complementary one, and the two roles are never equal. -/
theorem c7_channel_roles_complementary (c : String) (m : Nat)
    (h : c = "CLINICIAN" ∨ c = "PATIENT") :
    buildAudioParams "channelIdentification" m c = .channel (channelDefinitions c) true
    ∧ channelDefinitions c =
        [{ channelId := 0, participantRole := c },
          { channelId := 1, participantRole := complementaryRole c }]
    ∧ (c = "CLINICIAN" → complementaryRole c = "PATIENT")
    ∧ (c = "PATIENT" → complementaryRole c = "CLINICIAN")
    ∧ complementaryRole c ≠ c := by
  rcases h with rfl | rfl <;>
    exact ⟨rfl, rfl, by decide, by decide, by decide⟩

/-- Witness for C7 at the chosen role CLINICIAN. -/
theorem c7_channel_roles_complementary_witness :
    buildAudioParams "channelIdentification" 2 "CLINICIAN"
        = .channel (channelDefinitions "CLINICIAN") true
    ∧ channelDefinitions "CLINICIAN" =
        [{ channelId := 0, participantRole := "CLINICIAN" },
          { channelId := 1, participantRole := complementaryRole "CLINICIAN" }]
    ∧ ("CLINICIAN" = "CLINICIAN" → complementaryRole "CLINICIAN" = "PATIENT")
    ∧ ("CLINICIAN" = "PATIENT" → complementaryRole "CLINICIAN" = "CLINICIAN")
    ∧ complementaryRole "CLINICIAN" ≠ "CLINICIAN" :=
  c7_channel_roles_complementary "CLINICIAN" 2 (Or.inl rfl)

/-- Counterexample to claim C9: after a failed attempt on the page
mounted with uuid 1111, the page state still holds `session-1111`, and a
resubmission produces the identical trace — including the error
notification keyed by the very same job name — so the second attempt's
job name is not distinct from the first. -/
theorem c9_counterexample_name_not_regenerated :
    (submitJobPage envResubmit (mountPage "1111") 3).1.outcome = .raised "ECONNRESET"
    ∧ (submitJobPage envResubmit (mountPage "1111") 3).2.jobName = "session-1111"
    ∧ (submitJobPage envResubmit ((submitJobPage envResubmit (mountPage "1111") 3).2) 3).1.events
        = (submitJobPage envResubmit (mountPage "1111") 3).1.events
    ∧ Event.notify (uploadErrorNotif "session-1111" "retry.wav" "ECONNRESET")
        ∈ (submitJobPage envResubmit
            ((submitJobPage envResubmit (mountPage "1111") 3).2) 3).1.events := by
  decide

/-- Amended claim C9: the job name is generated once, at page mount, as
`session-<uuid>`; a submission attempt (failed or not) never changes it,
so a resubmission from the same page runs with the identical job name.
A fresh name arises only from a new mount (or a user edit of the name
field), not from the failure itself. -/
theorem c9_amended_resubmission_reuses_name (envA envB : Env) (u : String) (fuelA fuelB : Nat) :
    (mountPage u).jobName = generateFilename u
    ∧ generateFilename u = "session-" ++ u
    ∧ (submitJobPage envA (mountPage u) fuelA).1 = submitJob envA (generateFilename u) fuelA
    ∧ (submitJobPage envB ((submitJobPage envA (mountPage u) fuelA).2) fuelB).1
        = submitJob envB (generateFilename u) fuelB :=
  ⟨rfl, rfl, rfl, rfl⟩

/-- Rewrites for `pollingNotifValues` over each event constructor. -/
theorem pollingNotifValues_nil : pollingNotifValues [] = [] := rfl

/-- A `getHealthScribeJob` call contributes no notification value. -/
theorem pollingNotifValues_getJob (jn : String) (l : List Event) :
    pollingNotifValues (.getJobCall jn :: l) = pollingNotifValues l := rfl

/-- Navigation contributes no notification value. -/
theorem pollingNotifValues_navigate (p : String) (l : List Event) :
    pollingNotifValues (.navigate p :: l) = pollingNotifValues l := rfl

/-- A polling notification contributes its value. -/
theorem pollingNotifValues_poll (jn : String) (v : Nat) (l : List Event) :
    pollingNotifValues (.notify (pollNotif jn v) :: l) = v :: pollingNotifValues l := rfl

/-- The success notification is not a polling notification. -/
theorem pollingNotifValues_success (jn : String) (l : List Event) :
    pollingNotifValues (.notify (successNotif jn) :: l) = pollingNotifValues l := rfl

/-- Every event the polling loop emits is a `getHealthScribeJob` call, a
polling notification, the success notification, or the navigation to the
job's detail view. -/
theorem pollLoop_events_shape (poll : Nat → Except String (Option String)) (jn : String) :
    ∀ fuel i p, ∀ e ∈ (pollLoop poll jn i p fuel).1,
      e = .getJobCall jn ∨ (∃ v, e = .notify (pollNotif jn v))
        ∨ e = .notify (successNotif jn) ∨ e = .navigate ("/conversation/" ++ jn) := by
  intro fuel
  induction fuel with
  | zero =>
    intro i p e he
    simp [pollLoop] at he
  | succ n ih =>
    intro i p e he
    rcases hs : poll i with msg | st
    · simp only [pollLoop, hs] at he
      simp only [List.mem_singleton] at he
      subst he
      exact Or.inl rfl
    · simp only [pollLoop, hs] at he
      by_cases hc : st = some "COMPLETED"
      · rw [if_pos hc] at he
        simp only [List.mem_append, List.mem_cons, List.not_mem_nil, or_false] at he
        rcases he with (rfl | rfl) | (rfl | rfl)
        · exact Or.inl rfl
        · exact Or.inr (Or.inl ⟨p, rfl⟩)
        · exact Or.inr (Or.inr (Or.inl rfl))
        · exact Or.inr (Or.inr (Or.inr rfl))
      · rw [if_neg hc] at he
        simp only [List.mem_append, List.mem_cons, List.not_mem_nil, or_false] at he
        rcases he with (rfl | rfl) | he
        · exact Or.inl rfl
        · exact Or.inr (Or.inl ⟨p, rfl⟩)
        · exact ih _ _ e he

/-- Unfolding: out of fuel. -/
theorem pollLoop_zero (poll : Nat → Except String (Option String)) (jn : String) (i p : Nat) :
    pollLoop poll jn i p 0 = ([], .outOfFuel) := rfl

/-- Unfolding: the status fetch throws, ending the loop before the
iteration's notification. -/
theorem pollLoop_succ_error (poll : Nat → Except String (Option String)) (jn : String)
    (i p n : Nat) (msg : String) (hs : poll i = .error msg) :
    pollLoop poll jn i p (n + 1) = ([.getJobCall jn], .raisedMsg msg) := by
  simp only [pollLoop, hs]

/-- Unfolding: the fetched status is COMPLETED; the iteration posts its
polling notification, then the success notification, then navigates. -/
theorem pollLoop_succ_completed (poll : Nat → Except String (Option String)) (jn : String)
    (i p n : Nat) (hs : poll i = .ok (some "COMPLETED")) :
    pollLoop poll jn i p (n + 1)
      = ([.getJobCall jn, .notify (pollNotif jn p), .notify (successNotif jn),
          .navigate ("/conversation/" ++ jn)], .completed) := by
  simp only [pollLoop, hs]
  simp

/-- Unfolding: the fetched status is not COMPLETED; the loop posts the
iteration's notification and recurses with the advanced, clamped
counter. -/
theorem pollLoop_succ_continue (poll : Nat → Except String (Option String)) (jn : String)
    (i p n : Nat) (st : Option String) (hs : poll i = .ok st) (hc : st ≠ some "COMPLETED") :
    pollLoop poll jn i p (n + 1)
      = (.getJobCall jn :: .notify (pollNotif jn p) ::
          (pollLoop poll jn (i + 1) (if p + 5 ≥ 90 then 90 else p + 5) n).1,
         (pollLoop poll jn (i + 1) (if p + 5 ≥ 90 then 90 else p + 5) n).2) := by
  simp only [pollLoop, hs]
  rw [if_neg hc]
  rfl

/-- If the status fetch never throws and never yields COMPLETED, the
polling loop never terminates (it is still running whatever the fuel)
and never navigates. -/
theorem pollLoop_never_exits (poll : Nat → Except String (Option String)) (jn : String)
    (hok : ∀ k, ∃ s, poll k = .ok s)
    (hnc : ∀ k, poll k ≠ .ok (some "COMPLETED")) :
    ∀ fuel i p, (pollLoop poll jn i p fuel).2 = .outOfFuel
      ∧ ∀ e ∈ (pollLoop poll jn i p fuel).1, e.isNavigate = false := by
  intro fuel
  induction fuel with
  | zero =>
    intro i p
    refine ⟨rfl, ?_⟩
    intro e he
    simp [pollLoop_zero] at he
  | succ n ih =>
    intro i p
    obtain ⟨s, hs⟩ := hok i
    have hne : s ≠ some "COMPLETED" := fun h => hnc i (h ▸ hs)
    rw [pollLoop_succ_continue poll jn i p n s hs hne]
    refine ⟨(ih (i + 1) _).1, ?_⟩
    intro e he
    simp only [List.mem_cons] at he
    rcases he with rfl | rfl | he
    · rfl
    · rfl
    · exact (ih (i + 1) _).2 e he

/-- Within the polling loop, starting from any counter at most 90, the
posted values never decrease, never exceed 90, and the first posted
value is the starting counter. -/
theorem pollLoop_values_monotone (poll : Nat → Except String (Option String)) (jn : String) :
    ∀ fuel i p, p ≤ 90 →
      valuesNondecreasing (pollingNotifValues (pollLoop poll jn i p fuel).1) = true
      ∧ (∀ v ∈ pollingNotifValues (pollLoop poll jn i p fuel).1, v ≤ 90)
      ∧ (∀ v, (pollingNotifValues (pollLoop poll jn i p fuel).1).head? = some v → v = p) := by
  intro fuel
  induction fuel with
  | zero =>
    intro i p hp
    rw [pollLoop_zero]
    exact ⟨rfl, by intro v hv; simp [pollingNotifValues] at hv,
      by intro v hv; simp [pollingNotifValues] at hv⟩
  | succ n ih =>
    intro i p hp
    rcases hs : poll i with msg | st
    · rw [pollLoop_succ_error poll jn i p n msg hs]
      exact ⟨rfl, by intro v hv; simp [pollingNotifValues] at hv, by intro v hv; simp [pollingNotifValues] at hv⟩
    · by_cases hc : st = some "COMPLETED"
      · subst hc
        rw [pollLoop_succ_completed poll jn i p n hs]
        have hval : pollingNotifValues
            [Event.getJobCall jn, .notify (pollNotif jn p), .notify (successNotif jn),
              .navigate ("/conversation/" ++ jn)] = [p] := rfl
        rw [hval]
        refine ⟨rfl, ?_, ?_⟩
        · intro v hv
          rcases List.mem_singleton.mp hv with rfl
          exact hp
        · intro v hv
          simp at hv
          omega
      · rw [pollLoop_succ_continue poll jn i p n st hs hc]
        have hnle : (if p + 5 ≥ 90 then 90 else p + 5) ≤ 90 := by split <;> omega
        have hple : p ≤ (if p + 5 ≥ 90 then 90 else p + 5) := by split <;> omega
        obtain ⟨ih1, ih2, ih3⟩ := ih (i + 1) (if p + 5 ≥ 90 then 90 else p + 5) hnle
        have hval : pollingNotifValues
            (Event.getJobCall jn :: .notify (pollNotif jn p) ::
              (pollLoop poll jn (i + 1) (if p + 5 ≥ 90 then 90 else p + 5) n).1)
            = p :: pollingNotifValues
                (pollLoop poll jn (i + 1) (if p + 5 ≥ 90 then 90 else p + 5) n).1 := rfl
        rw [hval]
        refine ⟨?_, ?_, ?_⟩
        · rcases hvs : pollingNotifValues
              (pollLoop poll jn (i + 1) (if p + 5 ≥ 90 then 90 else p + 5) n).1 with _ | ⟨v, vs⟩
          · rfl
          · have hv : v = (if p + 5 ≥ 90 then 90 else p + 5) := ih3 v (by rw [hvs]; rfl)
            rw [hvs] at ih1
            show (Nat.ble p v && valuesNondecreasing (v :: vs)) = true
            rw [ih1, Bool.and_true]
            subst hv
            exact Nat.ble_eq.mpr hple
        · intro v hv
          rcases List.mem_cons.mp hv with rfl | hv2
          · exact hp
          · exact ih2 v hv2
        · intro v hv
          simp at hv
          omega

/-- The echo notification differs from every upload-progress
notification: the former carries additionalInfo, the latter never
does. -/
theorem s3UploadNotif_ne_unconfirmed (jn raw : String) (p : UploadProgress) :
    s3UploadNotif jn p ≠ unconfirmedNotif jn raw := by
  intro h
  have := congrArg Notification.additionalInfo h
  simp [s3UploadNotif, unconfirmedNotif] at this

/-- Claim C8: when the upload succeeds but the creation response has no
truthy status field, the workflow posts the single info-typed echo
notification as its final action, never calls `getHealthScribeJob`,
posts no error-typed notification, does not navigate, and returns
normally.  The trace equality shows the echo occurs exactly once: the
only other notifications are the initial flash message and the
upload-progress notifications, none of which equals the echo. -/
theorem c8_unconfirmed_skips_polling (env : Env) (jobName : String) (fuel : Nat)
    (st : Option String)
    (hver : env.verified = true) (hup : env.uploadResult = none)
    (hst : env.startJobResult = .ok st) (hfal : jsTruthy st = false) :
    (submitJob env jobName fuel).events
      = .notify initialNotif :: (uploadNotifs jobName env.uploadEvents
        ++ [Event.startJobCall, Event.notify (unconfirmedNotif jobName env.startJobRawData)])
    ∧ (submitJob env jobName fuel).outcome = .returned
    ∧ (unconfirmedNotif jobName env.startJobRawData).ntype = .info
    ∧ (∀ e ∈ uploadNotifs jobName env.uploadEvents,
        e ≠ .notify (unconfirmedNotif jobName env.startJobRawData))
    ∧ Event.notify initialNotif ≠ .notify (unconfirmedNotif jobName env.startJobRawData)
    ∧ ∀ e ∈ (submitJob env jobName fuel).events,
        e.isGetJobCall = false ∧ e.isNavigate = false ∧ e.isErrorNotif = false := by
  have hrun : submitJob env jobName fuel =
      { outcome := .returned
        events := .notify initialNotif :: (uploadNotifs jobName env.uploadEvents
          ++ [Event.startJobCall, Event.notify (unconfirmedNotif jobName env.startJobRawData)])
        isSubmitting := false
        formError := "" } := by
    simp [submitJob, hver, hup, hst, hfal]
  rw [hrun]
  refine ⟨rfl, rfl, rfl, ?_, ?_, ?_⟩
  · intro e he
    obtain ⟨p, -, rfl⟩ := List.mem_map.mp he
    intro h
    have h2 : s3UploadNotif jobName p = unconfirmedNotif jobName env.startJobRawData := by
      injection h
    exact s3UploadNotif_ne_unconfirmed jobName env.startJobRawData p h2
  · intro h
    have h2 : initialNotif = unconfirmedNotif jobName env.startJobRawData := by
      injection h
    have := congrArg Notification.additionalInfo h2
    simp [initialNotif, unconfirmedNotif] at this
  · intro e he
    simp only [List.mem_cons, List.mem_append, List.not_mem_nil, or_false] at he
    rcases he with rfl | he | rfl | rfl
    · exact ⟨rfl, rfl, rfl⟩
    · have h4 := uploadNotifs_props jobName env.uploadEvents e he
      exact ⟨h4.2.1, h4.2.2.1, h4.2.2.2⟩
    · exact ⟨rfl, rfl, rfl⟩
    · exact ⟨rfl, rfl, rfl⟩

/-- Witness for C8 at a concrete unconfirmed environment. -/
theorem c8_unconfirmed_skips_polling_witness :
    (submitJob envUnconfirmed "session-w8" 3).events
      = .notify initialNotif :: (uploadNotifs "session-w8" envUnconfirmed.uploadEvents
        ++ [Event.startJobCall, Event.notify (unconfirmedNotif "session-w8" "raw-response")])
    ∧ (submitJob envUnconfirmed "session-w8" 3).outcome = .returned
    ∧ (unconfirmedNotif "session-w8" "raw-response").ntype = .info
    ∧ (∀ e ∈ uploadNotifs "session-w8" envUnconfirmed.uploadEvents,
        e ≠ .notify (unconfirmedNotif "session-w8" "raw-response"))
    ∧ Event.notify initialNotif ≠ .notify (unconfirmedNotif "session-w8" "raw-response")
    ∧ ∀ e ∈ (submitJob envUnconfirmed "session-w8" 3).events,
        e.isGetJobCall = false ∧ e.isNavigate = false ∧ e.isErrorNotif = false :=
  c8_unconfirmed_skips_polling envUnconfirmed "session-w8" 3 none rfl rfl rfl rfl

/-- Claim C3: if every poll succeeds but never returns COMPLETED
(including runs that keep returning the terminal FAILED status), the
workflow never leaves the polling loop no matter how much fuel it is
given, never navigates, and never posts an error-typed notification:
only an observed COMPLETED status exits the loop. -/
theorem c3_only_completed_exits (env : Env) (jobName : String) (fuel : Nat) (st : Option String)
    (hver : env.verified = true)
    (hup : env.uploadResult = none)
    (hst : env.startJobResult = .ok st)
    (htr : jsTruthy st = true)
    (hok : ∀ k, ∃ s, env.pollResult k = .ok s)
    (hnc : ∀ k, env.pollResult k ≠ .ok (some "COMPLETED")) :
    (submitJob env jobName fuel).outcome = .stillPolling
    ∧ ∀ e ∈ (submitJob env jobName fuel).events,
        e.isNavigate = false ∧ e.isErrorNotif = false := by
  obtain ⟨hout, hnav⟩ := pollLoop_never_exits env.pollResult jobName hok hnc fuel 0 10
  rcases hpl : pollLoop env.pollResult jobName 0 10 fuel with ⟨pollEvs, out⟩
  rw [hpl] at hout hnav
  have hout2 : out = .outOfFuel := hout
  subst hout2
  have hrun : submitJob env jobName fuel =
      { outcome := .stillPolling
        events := .notify initialNotif :: (uploadNotifs jobName env.uploadEvents
          ++ (Event.startJobCall :: .notify (creationNotif jobName) :: pollEvs))
        isSubmitting := true
        formError := "" } := by
    simp [submitJob, hver, hup, hst, htr, hpl]
  rw [hrun]
  refine ⟨rfl, ?_⟩
  intro e he
  simp only [List.mem_cons, List.mem_append] at he
  rcases he with rfl | he | rfl | rfl | he
  · exact ⟨rfl, rfl⟩
  · have h4 := uploadNotifs_props jobName env.uploadEvents e he
    exact ⟨h4.2.2.1, h4.2.2.2⟩
  · exact ⟨rfl, rfl⟩
  · exact ⟨rfl, rfl⟩
  · refine ⟨hnav e he, ?_⟩
    rcases pollLoop_events_shape env.pollResult jobName fuel 0 10 e (by rw [hpl]; exact he)
      with rfl | ⟨v, rfl⟩ | rfl | rfl
    · rfl
    · rfl
    · rfl
    · rfl

/-- Witness for C3: with every poll returning FAILED the loop is still
running after 3 iterations, with no navigation and no error
notification. -/
theorem c3_only_completed_exits_witness :
    (submitJob envAlwaysFailed "session-w3" 3).outcome = .stillPolling
    ∧ ∀ e ∈ (submitJob envAlwaysFailed "session-w3" 3).events,
        e.isNavigate = false ∧ e.isErrorNotif = false :=
  c3_only_completed_exits envAlwaysFailed "session-w3" 3 (some "SUBMITTED") rfl rfl rfl
    (by decide) (fun _ => ⟨some "FAILED", rfl⟩)
    (fun _ h => absurd (Option.some.inj (Except.ok.inj h)) (by decide))

/-- Concatenation distributes through the polling-value filter. -/
theorem pollingNotifValues_append (l1 l2 : List Event) :
    pollingNotifValues (l1 ++ l2) = pollingNotifValues l1 ++ pollingNotifValues l2 := by
  simp [pollingNotifValues]

/-- Upload-progress notifications contribute no polling values. -/
theorem pollingNotifValues_uploadNotifs (jn : String) (l : List UploadProgress) :
    pollingNotifValues (uploadNotifs jn l) = [] := by
  induction l with
  | nil => rfl
  | cons p l ih =>
    show pollingNotifValues (.notify (s3UploadNotif jn p) :: uploadNotifs jn l) = []
    exact ih

/-- The initial flash message contributes no polling value. -/
theorem pollingNotifValues_initial (l : List Event) :
    pollingNotifValues (.notify initialNotif :: l) = pollingNotifValues l := rfl

/-- The job-creation call event contributes no polling value. -/
theorem pollingNotifValues_startCall (l : List Event) :
    pollingNotifValues (Event.startJobCall :: l) = pollingNotifValues l := rfl

/-- The 20% creation notification is not a polling notification. -/
theorem pollingNotifValues_creation (jn : String) (l : List Event) :
    pollingNotifValues (.notify (creationNotif jn) :: l) = pollingNotifValues l := rfl

/-- The catch-block error notification is not a polling notification. -/
theorem pollingNotifValues_scribeError (jn msg : String) (l : List Event) :
    pollingNotifValues (.notify (scribeErrorNotif jn msg) :: l) = pollingNotifValues l := rfl

/-- Amended claim C4: within the polling loop the posted values never
decrease and are capped at 90, but the first polling value is 10 —
strictly below the 20% posted at job creation.  That single regression
at the creation-to-polling transition is the only departure from the
original claim. -/
theorem c4_amended_poll_values_monotone_from_10 (env : Env) (jobName : String) (fuel : Nat)
    (st : Option String)
    (hver : env.verified = true) (hup : env.uploadResult = none)
    (hst : env.startJobResult = .ok st) (htr : jsTruthy st = true) :
    valuesNondecreasing (pollingNotifValues (submitJob env jobName fuel).events) = true
    ∧ (∀ v ∈ pollingNotifValues (submitJob env jobName fuel).events, v ≤ 90)
    ∧ (∀ v, (pollingNotifValues (submitJob env jobName fuel).events).head? = some v →
        v = 10 ∧ v < 20) := by
  rcases hpl : pollLoop env.pollResult jobName 0 10 fuel with ⟨pollEvs, out⟩
  obtain ⟨h1, h2, h3⟩ := pollLoop_values_monotone env.pollResult jobName fuel 0 10 (by omega)
  rw [hpl] at h1 h2 h3
  have hvals : pollingNotifValues (submitJob env jobName fuel).events
      = pollingNotifValues pollEvs := by
    cases out with
    | completed =>
      have hrun : (submitJob env jobName fuel).events
          = .notify initialNotif :: (uploadNotifs jobName env.uploadEvents
            ++ (Event.startJobCall :: .notify (creationNotif jobName) :: pollEvs)) := by
        simp [submitJob, hver, hup, hst, htr, hpl]
      rw [hrun, pollingNotifValues_initial, pollingNotifValues_append,
        pollingNotifValues_uploadNotifs, List.nil_append, pollingNotifValues_startCall,
        pollingNotifValues_creation]
    | raisedMsg msg =>
      have hrun : (submitJob env jobName fuel).events
          = .notify initialNotif :: (uploadNotifs jobName env.uploadEvents
            ++ (Event.startJobCall :: .notify (creationNotif jobName) ::
              (pollEvs ++ [.notify (scribeErrorNotif jobName msg)]))) := by
        simp [submitJob, hver, hup, hst, htr, hpl]
      rw [hrun, pollingNotifValues_initial, pollingNotifValues_append,
        pollingNotifValues_uploadNotifs, List.nil_append, pollingNotifValues_startCall,
        pollingNotifValues_creation, pollingNotifValues_append,
        pollingNotifValues_scribeError, pollingNotifValues_nil, List.append_nil]
    | outOfFuel =>
      have hrun : (submitJob env jobName fuel).events
          = .notify initialNotif :: (uploadNotifs jobName env.uploadEvents
            ++ (Event.startJobCall :: .notify (creationNotif jobName) :: pollEvs)) := by
        simp [submitJob, hver, hup, hst, htr, hpl]
      rw [hrun, pollingNotifValues_initial, pollingNotifValues_append,
        pollingNotifValues_uploadNotifs, List.nil_append, pollingNotifValues_startCall,
        pollingNotifValues_creation]
  rw [hvals]
  refine ⟨h1, h2, ?_⟩
  intro v hv
  have hvp := h3 v hv
  exact ⟨hvp, by omega⟩

/-- Witness for the amended C4 at the concrete completing scenario. -/
theorem c4_amended_poll_values_monotone_from_10_witness :
    valuesNondecreasing (pollingNotifValues (submitJob envScenario4 "session-abc" 5).events)
        = true
    ∧ (∀ v ∈ pollingNotifValues (submitJob envScenario4 "session-abc" 5).events, v ≤ 90)
    ∧ (∀ v, (pollingNotifValues (submitJob envScenario4 "session-abc" 5).events).head?
          = some v → v = 10 ∧ v < 20) :=
  c4_amended_poll_values_monotone_from_10 envScenario4 "session-abc" 5 (some "SUBMITTED")
    rfl rfl rfl (by decide)

/-- Every upload-progress notification uses the job-keyed id. -/
theorem notifIds_uploadNotifs (jn : String) (l : List UploadProgress) :
    ∀ s ∈ notifIds (uploadNotifs jn l), s = notifId jn := by
  induction l with
  | nil =>
    intro s hs
    simp [notifIds, uploadNotifs] at hs
  | cons p l ih =>
    intro s hs
    rcases List.mem_cons.mp
        (show s ∈ notifId jn :: notifIds (uploadNotifs jn l) from hs) with rfl | hs2
    · rfl
    · exact ih s hs2

/-- Every notification the polling loop posts uses the job-keyed id. -/
theorem pollLoop_notifIds (poll : Nat → Except String (Option String)) (jn : String)
    (fuel i p : Nat) :
    ∀ s ∈ notifIds (pollLoop poll jn i p fuel).1, s = notifId jn := by
  intro s hs
  simp only [notifIds] at hs
  obtain ⟨e, he, hf⟩ := List.mem_filterMap.mp hs
  rcases pollLoop_events_shape poll jn fuel i p e he with rfl | ⟨v, rfl⟩ | rfl | rfl
  · simp at hf
  · exact (Option.some.inj hf).symm
  · exact (Option.some.inj hf).symm
  · simp at hf

/-- Amended claim C5: the submission workflow posts notifications under
exactly three ids, not one: the constant `Transcribing Audio` (initial
flash message, not keyed by the job name), `New Job: <jobName>` (upload
failure), and the job-keyed `New HealthScribe Job: <jobName>` (upload
progress, creation, polling and all terminal notifications). -/
theorem c5_amended_three_notification_ids (env : Env) (jobName : String) (fuel : Nat) :
    ∀ s ∈ notifIds (submitJob env jobName fuel).events,
      s = "Transcribing Audio" ∨ s = "New Job: " ++ jobName ∨ s = notifId jobName := by
  intro s hs
  simp only [notifIds] at hs
  obtain ⟨e, he, hf⟩ := List.mem_filterMap.mp hs
  by_cases hver : env.verified = false
  · have hrun : (submitJob env jobName fuel).events = [] := by
      simp [submitJob, hver]
    rw [hrun] at he
    simp at he
  · have hv : env.verified = true := by
      cases h : env.verified
      · exact absurd h hver
      · rfl
    rcases hur : env.uploadResult with _ | msg
    · rcases hsr : env.startJobResult with msg | st
      · have hrun : (submitJob env jobName fuel).events
            = .notify initialNotif :: (uploadNotifs jobName env.uploadEvents
              ++ (Event.startJobCall :: [.notify (scribeErrorNotif jobName msg)])) := by
          simp [submitJob, hv, hur, hsr]
        rw [hrun] at he
        simp only [List.mem_cons, List.mem_append, List.not_mem_nil, or_false] at he
        rcases he with rfl | he | rfl | rfl
        · exact Or.inl (Option.some.inj hf).symm
        · obtain ⟨p, -, rfl⟩ := List.mem_map.mp he
          exact Or.inr (Or.inr (Option.some.inj hf).symm)
        · simp at hf
        · exact Or.inr (Or.inr (Option.some.inj hf).symm)
      · by_cases htr : jsTruthy st = true
        · rcases hpl : pollLoop env.pollResult jobName 0 10 fuel with ⟨pollEvs, out⟩
          have hpoll : ∀ e2 ∈ pollEvs,
              e2 = .getJobCall jobName ∨ (∃ v, e2 = .notify (pollNotif jobName v))
                ∨ e2 = .notify (successNotif jobName)
                ∨ e2 = .navigate ("/conversation/" ++ jobName) := by
            intro e2 he2
            exact pollLoop_events_shape env.pollResult jobName fuel 0 10 e2 (by rw [hpl]; exact he2)
          cases out with
          | completed =>
            have hrun : (submitJob env jobName fuel).events
                = .notify initialNotif :: (uploadNotifs jobName env.uploadEvents
                  ++ (Event.startJobCall :: .notify (creationNotif jobName) :: pollEvs)) := by
              simp [submitJob, hv, hur, hsr, htr, hpl]
            rw [hrun] at he
            simp only [List.mem_cons, List.mem_append] at he
            rcases he with rfl | he | rfl | rfl | he
            · exact Or.inl (Option.some.inj hf).symm
            · obtain ⟨p, -, rfl⟩ := List.mem_map.mp he
              exact Or.inr (Or.inr (Option.some.inj hf).symm)
            · simp at hf
            · exact Or.inr (Or.inr (Option.some.inj hf).symm)
            · rcases hpoll e he with rfl | ⟨v, rfl⟩ | rfl | rfl
              · simp at hf
              · exact Or.inr (Or.inr (Option.some.inj hf).symm)
              · exact Or.inr (Or.inr (Option.some.inj hf).symm)
              · simp at hf
          | raisedMsg msg =>
            have hrun : (submitJob env jobName fuel).events
                = .notify initialNotif :: (uploadNotifs jobName env.uploadEvents
                  ++ (Event.startJobCall :: .notify (creationNotif jobName) ::
                    (pollEvs ++ [.notify (scribeErrorNotif jobName msg)]))) := by
              simp [submitJob, hv, hur, hsr, htr, hpl]
            rw [hrun] at he
            simp only [List.mem_cons, List.mem_append, List.not_mem_nil, or_false] at he
            rcases he with rfl | he | rfl | rfl | he | rfl
            · exact Or.inl (Option.some.inj hf).symm
            · obtain ⟨p, -, rfl⟩ := List.mem_map.mp he
              exact Or.inr (Or.inr (Option.some.inj hf).symm)
            · simp at hf
            · exact Or.inr (Or.inr (Option.some.inj hf).symm)
            · rcases hpoll e he with rfl | ⟨v, rfl⟩ | rfl | rfl
              · simp at hf
              · exact Or.inr (Or.inr (Option.some.inj hf).symm)
              · exact Or.inr (Or.inr (Option.some.inj hf).symm)
              · simp at hf
            · exact Or.inr (Or.inr (Option.some.inj hf).symm)
          | outOfFuel =>
            have hrun : (submitJob env jobName fuel).events
                = .notify initialNotif :: (uploadNotifs jobName env.uploadEvents
                  ++ (Event.startJobCall :: .notify (creationNotif jobName) :: pollEvs)) := by
              simp [submitJob, hv, hur, hsr, htr, hpl]
            rw [hrun] at he
            simp only [List.mem_cons, List.mem_append] at he
            rcases he with rfl | he | rfl | rfl | he
            · exact Or.inl (Option.some.inj hf).symm
            · obtain ⟨p, -, rfl⟩ := List.mem_map.mp he
              exact Or.inr (Or.inr (Option.some.inj hf).symm)
            · simp at hf
            · exact Or.inr (Or.inr (Option.some.inj hf).symm)
            · rcases hpoll e he with rfl | ⟨v, rfl⟩ | rfl | rfl
              · simp at hf
              · exact Or.inr (Or.inr (Option.some.inj hf).symm)
              · exact Or.inr (Or.inr (Option.some.inj hf).symm)
              · simp at hf
        · have hfal : jsTruthy st = false := by
            revert htr
            cases jsTruthy st <;> simp
          have hrun : (submitJob env jobName fuel).events
              = .notify initialNotif :: (uploadNotifs jobName env.uploadEvents
                ++ [Event.startJobCall,
                  Event.notify (unconfirmedNotif jobName env.startJobRawData)]) := by
            simp [submitJob, hv, hur, hsr, hfal]
          rw [hrun] at he
          simp only [List.mem_cons, List.mem_append, List.not_mem_nil, or_false] at he
          rcases he with rfl | he | rfl | rfl
          · exact Or.inl (Option.some.inj hf).symm
          · obtain ⟨p, -, rfl⟩ := List.mem_map.mp he
            exact Or.inr (Or.inr (Option.some.inj hf).symm)
          · simp at hf
          · exact Or.inr (Or.inr (Option.some.inj hf).symm)
    · have hrun : (submitJob env jobName fuel).events
          = .notify initialNotif :: (uploadNotifs jobName env.uploadEvents
            ++ [.notify (uploadErrorNotif jobName env.fileName msg)]) := by
        simp [submitJob, hv, hur]
      rw [hrun] at he
      simp only [List.mem_cons, List.mem_append, List.not_mem_nil, or_false] at he
      rcases he with rfl | he | rfl
      · exact Or.inl (Option.some.inj hf).symm
      · obtain ⟨p, -, rfl⟩ := List.mem_map.mp he
        exact Or.inr (Or.inr (Option.some.inj hf).symm)
      · exact Or.inr (Or.inl (Option.some.inj hf).symm)
/-- Witness for the amended C5: in the concrete upload-failure run the
initial notification's id is among the three ids. -/
theorem c5_amended_three_notification_ids_witness :
    "Transcribing Audio" = "Transcribing Audio"
      ∨ "Transcribing Audio" = "New Job: " ++ "session-abc"
      ∨ "Transcribing Audio" = notifId "session-abc" :=
  c5_amended_three_notification_ids envUploadFail5 "session-abc" 3 "Transcribing Audio"
    (by decide)
